import Mathlib

/-!
Shallow embedding of the device-control core of the NIA-Engineering repository:
the `modbus_operation` guard (PNPPK/core/utils/modbus_utils.py), the
gas-flow-regulator controller (PNPPK/core/gas_flow_regulator/controller.py) and
the relay controller (PNPPK/core/relay/controller.py).

Modelling conventions:
 - Python floats are modelled as exact rationals; the numeric claims are stated
   at that level (the codecs only multiply/divide by powers of 10).
 - The process-wide mutable `LAST_ERROR` string and the controller's connection
   attribute are gathered in one explicit state record `CState`; calls into the
   serial transport are recorded as a trace of `DevEvent`s.
 - A Python computation that may raise is a `PyResult`: either a normal value
   together with the state mutated so far, or a raised exception (its `str(e)`
   text) together with the state mutated up to the raise.
 - The behaviour of the external pymodbus transport (whether a write, a close
   or a read raises, and which response a read returns) is an explicit oracle
   `DevBehavior`.
-/

/-- Python values returned by the guarded operations of the two controllers:
`None`, an `int`, or a `(status, measurement)` pair as returned by `GetFlow`. -/
inductive PyVal where
  | none : PyVal
  | int : Int → PyVal
  | pair : Int → ℚ → PyVal
  deriving DecidableEq

/-- Result of running a Python body: normal return or raised exception, each
carrying the state as mutated up to that point. -/
inductive PyResult (σ : Type) where
  | ok : σ → PyVal → PyResult σ
  | exn : σ → String → PyResult σ
  deriving DecidableEq

/-- One observable call into the serial transport object. -/
inductive DevEvent where
  | write : Int → Int → Int → DevEvent
  | close : DevEvent
  | readFlow : Int → Int → DevEvent
  deriving DecidableEq

/-- Controller state: the connection attribute (`self._gfr` / `self._relay`,
`none` when null), the stored `self.slave_id`, the process-wide `LAST_ERROR`
string of modbus_utils.py, and the trace of transport calls made so far. -/
structure CState where
  device : Option Unit
  slave_id : Int
  lastError : String
  events : List DevEvent
  deriving DecidableEq

/-- `MODBUS_OK` from modbus_utils.py. -/
def MODBUS_OK : Int := 0

/-- `MODBUS_ERROR` from modbus_utils.py. -/
def MODBUS_ERROR : Int := -1

/-- `set_last_error`: its ValueError branch is unreachable here because every
caller passes a formatted string. -/
def setLastError (st : CState) (msg : String) : CState :=
  { st with lastError := msg }

/-- `get_last_error`. -/
def getLastError (st : CState) : String :=
  st.lastError

/-- `reset_last_error`. -/
def resetLastError (st : CState) : CState :=
  { st with lastError := "" }

/-- The configuration arguments of the `modbus_operation` decorator. -/
structure GuardCfg where
  operation_name : String
  cleanup_on_error : Bool
  return_on_success : Int
  return_on_error : Int
  skip_device_check : Bool
  preserve_return_value : Bool

/-- Python `==` between a wrapped operation's return value and an `int`
constant: `None == n` and `(a, b) == n` are `False`. -/
def pyEqInt : PyVal → Int → Bool
  | PyVal.int m, n => m == n
  | _, _ => false

/-- The fixed tail of the device-presence error message of `modbus_operation`
(line 72 of modbus_utils.py): the Russian for
"failed: device not initialized (the connection was not successfully
established)". -/
def notInitializedSuffix : String :=
  " не удалось: Устройство не инициализировано (соединение не было успешно установлено)"

/-- The separator of the exception message `f"(name) не удалось: (e)"`. -/
def failSep : String := " не удалось: "

/-- The `wrapper` produced by the `modbus_operation` decorator
(modbus_utils.py lines 63-123), specialised to a controller state `CState`.
`device` is captured by `getattr` before the wrapped function runs; the
cleanup branch tests that captured value but nulls the current attribute.
The outer `except Exception` of the source is unreachable in this model:
besides the wrapped function (whose exceptions the inner `try` catches),
every step of the wrapper is a total operation. -/
def modbus_operation (cfg : GuardCfg) (body : CState → PyResult CState)
    (st : CState) : PyResult CState :=
  let device := st.device
  if !cfg.skip_device_check && device.isNone then
    PyResult.ok
      (setLastError st (cfg.operation_name ++ notInitializedSuffix))
      (PyVal.int cfg.return_on_error)
  else
    match body st with
    | PyResult.exn st1 e =>
      let st2 := setLastError st1 (cfg.operation_name ++ failSep ++ e)
      let st3 :=
        if cfg.cleanup_on_error && device.isSome then
          { st2 with device := none }
        else st2
      PyResult.ok st3 (PyVal.int cfg.return_on_error)
    | PyResult.ok st1 result =>
      if pyEqInt result MODBUS_ERROR then
        PyResult.ok (setLastError st1 (getLastError st1))
          (PyVal.int cfg.return_on_error)
      else if cfg.preserve_return_value then
        PyResult.ok st1 result
      else
        PyResult.ok (resetLastError st1) (PyVal.int cfg.return_on_success)

/-- State reached by a `PyResult`, whether it returned or raised. -/
def resultState : PyResult CState → CState
  | PyResult.ok st _ => st
  | PyResult.exn st _ => st

/-- Boolean substring helpers: `isPrefixChars p l` is true when `p` is an
initial segment of `l`. -/
def isPrefixChars : List Char → List Char → Bool
  | [], _ => true
  | _ :: _, [] => false
  | a :: as, b :: bs => a == b && isPrefixChars as bs

/-- `hasSub p l` is true when the character list `p` occurs contiguously
inside `l` (Python's `p in l` on strings). -/
def hasSub (p : List Char) : List Char → Bool
  | [] => isPrefixChars p []
  | b :: bs => isPrefixChars p (b :: bs) || hasSub p bs

/-- `struct.pack(">H", v)`: big-endian unsigned 16-bit, two bytes; raises
`struct.error` when the value does not fit. -/
def pack_be_H (v : Nat) : Option (Nat × Nat) :=
  if v < 65536 then some (v / 256, v % 256) else none

/-- `struct.unpack(">h", b)[0]`: big-endian signed 16-bit read from two
bytes (two's complement). -/
def unpack_be_h : Nat × Nat → Int
  | (b0, b1) =>
    let u : Nat := b0 * 256 + b1
    if u < 32768 then (u : Int) else (u : Int) - 65536

/-- The spec's `signed16`: reinterpret an unsigned 16-bit register pattern as
two's-complement signed 16-bit. -/
def signed16 (r : Nat) : Int :=
  if r < 32768 then (r : Int) else (r : Int) - 65536

/-- Python `int(x)` on an exact value: truncation toward zero. -/
def pyTrunc (q : ℚ) : Int :=
  Int.tdiv q.num (q.den : Int)

/-- Behaviour oracle for the external pymodbus transport: whether
`write_register`, `close` or `read_holding_registers` raises (and with which
message), and the register payload carried by a read response (`none` models a
response without a usable `registers` attribute). -/
structure DevBehavior where
  writeExn : Int → Int → Int → Option String
  closeExn : Option String
  readExn : Option String
  readResp : Option (List Nat)

/-- Outcome of one `connect()` call on the transport: `True`, `False`, or a
raised exception. The captured exception text feeds only the diagnostic
`original_error_message` (used by the relay's final message and stderr
capture), not the GFR's final message. -/
inductive ConnectOutcome where
  | ok : ConnectOutcome
  | refused : ConnectOutcome
  | exn : String → ConnectOutcome
  deriving DecidableEq

/-- The `for attempt in range(connect_attempts)` loop of `_init`
(controller.py lines 42-60): given the per-attempt outcome oracle, the budget
of remaining attempts and the current attempt index, return how many
`connect()` calls were made and whether one of them returned `True`. -/
def connectLoop (connect : Nat → ConnectOutcome) : Nat → Nat → Nat × Bool
  | 0, _ => (0, false)
  | n + 1, i =>
    match connect i with
    | ConnectOutcome.ok => (1, true)
    | _ =>
      let r := connectLoop connect n (i + 1)
      (r.1 + 1, r.2)

/-- The final message of `GFRController._init` when the retry budget is
exhausted: "Failed to connect to the GFR after (n) attempts". -/
def gfrConnectFailMsg (n : Nat) : String :=
  "Не удалось подключиться к РРГ после " ++ toString n ++ " попыток"

/-! The gas-flow-regulator controller (GFRController). -/

/-- Register map of GFRController. -/
def MODBUS_REGISTER_SETPOINT_HIGH : Int := 2053

/-- Setpoint-low register of GFRController. -/
def MODBUS_REGISTER_SETPOINT_LOW : Int := 2054

/-- Flow register of GFRController. -/
def MODBUS_REGISTER_FLOW : Int := 2103

/-- Gas-type register of GFRController. -/
def MODBUS_REGISTER_GAS : Int := 2100

/-- On/off register of RelayController. -/
def MODBUS_REGISTER_TURN_ON_OFF : Int := 512

/-- Decorator configuration of `GFRController._close`. -/
def gfrCloseCfg : GuardCfg :=
  ⟨"РРГ: Закрытие соединения с устройством", true, 0, -1, false, false⟩

/-- Decorator configuration of `GFRController._set_slave`. -/
def gfrSetSlaveCfg : GuardCfg :=
  ⟨"РРГ: Установка Slave", true, 0, -1, true, false⟩

/-- Decorator configuration of `GFRController.TurnOn`. -/
def gfrTurnOnCfg : GuardCfg :=
  ⟨"РРГ: Включение", true, 0, -1, true, false⟩

/-- Decorator configuration of `GFRController.TurnOff`. -/
def gfrTurnOffCfg : GuardCfg :=
  ⟨"РРГ: Выключение", true, 0, -1, false, false⟩

/-- Decorator configuration of `GFRController.SetFlow` (the f-string name with
the register constants already substituted). -/
def gfrSetFlowCfg : GuardCfg :=
  ⟨"РРГ: Установка расхода (запись в регистры 2053 и 2054)", true, 0, -1, false, false⟩

/-- Decorator configuration of `GFRController.GetFlow`:
`preserve_return_value=True`. -/
def gfrGetFlowCfg : GuardCfg :=
  ⟨"РРГ: Получение расхода (чтение из регистра 2103)", true, 0, -1, false, true⟩

/-- Decorator configuration of `GFRController.SetGas`. -/
def gfrSetGasCfg : GuardCfg :=
  ⟨"РРГ: Установка газа (запись в регистр 2100)", true, 0, -1, false, false⟩

/-- Decorator configuration of `RelayController.TurnOff`. -/
def relayTurnOffCfg : GuardCfg :=
  ⟨"РЕЛЕ: Выключение", true, 0, -1, false, false⟩

/-- Body of `GFRController._set_slave`: `self.slave_id = slave_id`. -/
def GFR_set_slave_body (slv : Int) (st : CState) : PyResult CState :=
  PyResult.ok { st with slave_id := slv } PyVal.none

/-- `GFRController._set_slave` (guarded, `skip_device_check=True`). -/
def GFR_set_slave (slv : Int) (st : CState) : PyResult CState :=
  modbus_operation gfrSetSlaveCfg (GFR_set_slave_body slv) st

/-- `GFRController._init` (controller.py lines 20-67): settle, construct the
transport (assigning `self._gfr` only if the constructor returns), set the
slave id through the guarded `_set_slave`, then try `connect()` up to 3 times;
raise with `gfrConnectFailMsg` once the budget is exhausted. `ctorExn` is the
transport constructor's behaviour; sleeps are timing only and not modelled. -/
def GFR_init (ctorExn : Option String) (connect : Nat → ConnectOutcome)
    (slv : Int) (st : CState) : PyResult CState :=
  match ctorExn with
  | some e => PyResult.exn st ("Не удалось подключиться к РРГ: " ++ e)
  | none =>
    let st1 : CState := { st with device := some () }
    match GFR_set_slave slv st1 with
    | PyResult.exn st2 e => PyResult.exn st2 e
    | PyResult.ok st2 _ =>
      if (connectLoop connect 3 0).2 then
        PyResult.ok st2 PyVal.none
      else
        PyResult.exn st2 (gfrConnectFailMsg 3)

/-- `GFRController.TurnOn` (guarded, `skip_device_check=True`): its body calls
`self._init(...)` and returns `None`. -/
def GFR_TurnOn (ctorExn : Option String) (connect : Nat → ConnectOutcome)
    (slv : Int) (st : CState) : PyResult CState :=
  modbus_operation gfrTurnOnCfg
    (fun s =>
      match GFR_init ctorExn connect slv s with
      | PyResult.ok s1 _ => PyResult.ok s1 PyVal.none
      | PyResult.exn s1 e => PyResult.exn s1 e)
    st

/-- Body of `GFRController._close`: `self._gfr.close(); self._gfr = None`. -/
def GFR_close_body (dev : DevBehavior) (st : CState) : PyResult CState :=
  match st.device with
  | none => PyResult.exn st "AttributeError: NoneType object has no attribute close"
  | some _ =>
    let st1 := { st with events := st.events ++ [DevEvent.close] }
    match dev.closeExn with
    | some e => PyResult.exn st1 e
    | none => PyResult.ok { st1 with device := none } PyVal.none

/-- `GFRController._close` (guarded). -/
def GFR_close (dev : DevBehavior) (st : CState) : PyResult CState :=
  modbus_operation gfrCloseCfg (GFR_close_body dev) st

/-- Body of `GFRController.TurnOff`: `self._close()`, return value discarded,
so the body itself returns `None`. -/
def GFR_TurnOff_body (dev : DevBehavior) (st : CState) : PyResult CState :=
  match GFR_close dev st with
  | PyResult.ok s1 _ => PyResult.ok s1 PyVal.none
  | PyResult.exn s1 e => PyResult.exn s1 e

/-- `GFRController.TurnOff` (guarded). -/
def GFR_TurnOff (dev : DevBehavior) (st : CState) : PyResult CState :=
  modbus_operation gfrTurnOffCfg (GFR_TurnOff_body dev) st

/-- Body of `GFRController.SetFlow` (controller.py lines 156-164):
`value = int(setpoint * 1000)`; `reg_high = value >> 16` (Python's arithmetic
shift on unbounded ints, i.e. floor division by 2^16); `reg_low = value &
0xFFFF` (i.e. the nonnegative remainder modulo 2^16); write high to 2053 then
low to 2054, both with `slave=self.slave_id`. -/
def GFR_SetFlow_body (dev : DevBehavior) (setpoint : ℚ) (st : CState) :
    PyResult CState :=
  let value := pyTrunc (setpoint * 1000)
  let reg_high := Int.fdiv value 65536
  let reg_low := Int.emod value 65536
  match st.device with
  | none => PyResult.exn st "AttributeError: NoneType object has no attribute write_register"
  | some _ =>
    let st1 := { st with events :=
      st.events ++ [DevEvent.write MODBUS_REGISTER_SETPOINT_HIGH reg_high st.slave_id] }
    match dev.writeExn MODBUS_REGISTER_SETPOINT_HIGH reg_high st.slave_id with
    | some e => PyResult.exn st1 e
    | none =>
      let st2 := { st1 with events :=
        st1.events ++ [DevEvent.write MODBUS_REGISTER_SETPOINT_LOW reg_low st.slave_id] }
      match dev.writeExn MODBUS_REGISTER_SETPOINT_LOW reg_low st.slave_id with
      | some e => PyResult.exn st2 e
      | none => PyResult.ok st2 PyVal.none

/-- `GFRController.SetFlow` (guarded). -/
def GFR_SetFlow (dev : DevBehavior) (setpoint : ℚ) (st : CState) :
    PyResult CState :=
  modbus_operation gfrSetFlowCfg (GFR_SetFlow_body dev setpoint) st

/-- Body of `GFRController.GetFlow` (controller.py lines 171-181): read one
holding register at 2103 with the stored slave id; if the response carries no
register payload return `(MODBUS_ERROR, 0)`; otherwise reinterpret the raw
word through `pack(">H", .)` / `unpack(">h", .)` and return
`(MODBUS_OK, signed / 10.0)`. -/
def GFR_GetFlow_body (dev : DevBehavior) (st : CState) : PyResult CState :=
  match st.device with
  | none => PyResult.exn st "AttributeError: NoneType object has no attribute read_holding_registers"
  | some _ =>
    let st1 := { st with events :=
      st.events ++ [DevEvent.readFlow MODBUS_REGISTER_FLOW st.slave_id] }
    match dev.readExn with
    | some e => PyResult.exn st1 e
    | none =>
      match dev.readResp with
      | none => PyResult.ok st1 (PyVal.pair MODBUS_ERROR 0)
      | some [] => PyResult.ok st1 (PyVal.pair MODBUS_ERROR 0)
      | some (value :: _) =>
        match pack_be_H value with
        | none => PyResult.exn st1 "struct.error: ushort format requires 0 <= number <= 65535"
        | some bs => PyResult.ok st1 (PyVal.pair MODBUS_OK ((unpack_be_h bs : ℚ) / 10))

/-- `GFRController.GetFlow` (guarded, `preserve_return_value=True`). -/
def GFR_GetFlow (dev : DevBehavior) (st : CState) : PyResult CState :=
  modbus_operation gfrGetFlowCfg (GFR_GetFlow_body dev) st

/-- Body of `GFRController.SetGas`: one register write to 2100. -/
def GFR_SetGas_body (dev : DevBehavior) (gas_id : Int) (st : CState) :
    PyResult CState :=
  match st.device with
  | none => PyResult.exn st "AttributeError: NoneType object has no attribute write_register"
  | some _ =>
    let st1 := { st with events :=
      st.events ++ [DevEvent.write MODBUS_REGISTER_GAS gas_id st.slave_id] }
    match dev.writeExn MODBUS_REGISTER_GAS gas_id st.slave_id with
    | some e => PyResult.exn st1 e
    | none => PyResult.ok st1 PyVal.none

/-- `GFRController.SetGas` (guarded). -/
def GFR_SetGas (dev : DevBehavior) (gas_id : Int) (st : CState) :
    PyResult CState :=
  modbus_operation gfrSetGasCfg (GFR_SetGas_body dev gas_id) st

/-- `IsConnected`: pure predicate on handle nullity. -/
def CState.IsConnected (st : CState) : Bool := st.device.isSome

/-- `IsDisconnected`: pure predicate on handle nullity. -/
def CState.IsDisconnected (st : CState) : Bool := st.device.isNone

/-! The relay controller (RelayController). -/

/-- Body of `RelayController.TurnOff` (relay/controller.py lines 85-88):
`self._relay.write_register(512, 0, slave=self.slave_id)` then
`self._relay.close()`; the handle is not assigned anywhere in the body. -/
def Relay_TurnOff_body (dev : DevBehavior) (st : CState) : PyResult CState :=
  match st.device with
  | none => PyResult.exn st "AttributeError: NoneType object has no attribute write_register"
  | some _ =>
    let st1 := { st with events :=
      st.events ++ [DevEvent.write MODBUS_REGISTER_TURN_ON_OFF 0 st.slave_id] }
    match dev.writeExn MODBUS_REGISTER_TURN_ON_OFF 0 st.slave_id with
    | some e => PyResult.exn st1 e
    | none =>
      let st2 := { st1 with events := st1.events ++ [DevEvent.close] }
      match dev.closeExn with
      | some e => PyResult.exn st2 e
      | none => PyResult.ok st2 PyVal.none

/-- `RelayController.TurnOff` (guarded). -/
def Relay_TurnOff (dev : DevBehavior) (st : CState) : PyResult CState :=
  modbus_operation relayTurnOffCfg (Relay_TurnOff_body dev) st

/-! Helper lemmas. -/

/-- Packing an in-range word big-endian and unpacking it signed is exactly the
two's-complement reinterpretation `signed16`. -/
theorem unpack_pack_signed16 (r : Nat) :
    unpack_be_h (r / 256, r % 256) = signed16 r := by
  have hu : r / 256 * 256 + r % 256 = r := by omega
  simp only [unpack_be_h, signed16, hu]

/-- Evaluation of the guarded `GetFlow` on a connected controller whose read
returns the single register word `r`: the word is decoded through the
pack/unpack pair and the `(MODBUS_OK, flow)` tuple survives the guard. -/
theorem getFlow_spec (r : Nat) (h16 : r < 65536) (dev : DevBehavior)
    (st : CState) (hdev : st.device = some ()) (hexn : dev.readExn = none)
    (hresp : dev.readResp = some [r]) :
    GFR_GetFlow dev st = PyResult.ok
      { st with events :=
          st.events ++ [DevEvent.readFlow MODBUS_REGISTER_FLOW st.slave_id] }
      (PyVal.pair MODBUS_OK ((signed16 r : ℚ) / 10)) := by
  simp only [GFR_GetFlow, modbus_operation, GFR_GetFlow_body, gfrGetFlowCfg,
    hdev, hexn, hresp, pack_be_H, h16, if_true, Option.isNone_some,
    Bool.and_false, Bool.false_eq_true, if_false, pyEqInt, MODBUS_ERROR,
    unpack_pack_signed16 r]

/-! Claim theorems and their witnesses. -/

/-- Claim C1: for every raw unsigned 16-bit register value `r` returned by the
flow register read, `GetFlow` decodes the flow as `signed16 r / 10` (the bit
pattern reinterpreted as two's-complement signed 16-bit, then scaled), and the
guarded call returns the `(MODBUS_OK, flow)` pair after one read of register
2103 with the stored slave id. -/
theorem C1_flow_decode (r : Nat) (hr : r ≤ 65535) (dev : DevBehavior)
    (st : CState) (hdev : st.device = some ()) (hexn : dev.readExn = none)
    (hresp : dev.readResp = some [r]) :
    GFR_GetFlow dev st = PyResult.ok
      { st with events :=
          st.events ++ [DevEvent.readFlow MODBUS_REGISTER_FLOW st.slave_id] }
      (PyVal.pair MODBUS_OK ((signed16 r : ℚ) / 10)) :=
  getFlow_spec r (by omega) dev st hdev hexn hresp

/-- Witness for C1 at the claim's examples: raw `0xFFFF` decodes to `-0.1`,
raw `300` to `30.0`, raw `0` to `0.0`. -/
theorem C1_flow_decode_witness :
    GFR_GetFlow ⟨fun _ _ _ => none, none, none, some [65535]⟩ ⟨some (), 1, "", []⟩
      = PyResult.ok ⟨some (), 1, "", [DevEvent.readFlow 2103 1]⟩
          (PyVal.pair 0 (-(1 / 10 : ℚ)))
    ∧ GFR_GetFlow ⟨fun _ _ _ => none, none, none, some [300]⟩ ⟨some (), 1, "", []⟩
      = PyResult.ok ⟨some (), 1, "", [DevEvent.readFlow 2103 1]⟩
          (PyVal.pair 0 (30 : ℚ))
    ∧ GFR_GetFlow ⟨fun _ _ _ => none, none, none, some [0]⟩ ⟨some (), 1, "", []⟩
      = PyResult.ok ⟨some (), 1, "", [DevEvent.readFlow 2103 1]⟩
          (PyVal.pair 0 (0 : ℚ)) := by
  have e1 : signed16 65535 = -1 := by decide
  have e2 : signed16 300 = 300 := by decide
  have e3 : signed16 0 = 0 := by decide
  refine ⟨?_, ?_, ?_⟩
  · have h := C1_flow_decode 65535 (by decide)
      ⟨fun _ _ _ => none, none, none, some [65535]⟩ ⟨some (), 1, "", []⟩ rfl rfl rfl
    rw [e1] at h
    exact h.trans (by norm_num [ MODBUS_OK, MODBUS_REGISTER_FLOW])
  · have h := C1_flow_decode 300 (by decide)
      ⟨fun _ _ _ => none, none, none, some [300]⟩ ⟨some (), 1, "", []⟩ rfl rfl rfl
    rw [e2] at h
    exact h.trans (by norm_num [ MODBUS_OK, MODBUS_REGISTER_FLOW])
  · have h := C1_flow_decode 0 (by decide)
      ⟨fun _ _ _ => none, none, none, some [0]⟩ ⟨some (), 1, "", []⟩ rfl rfl rfl
    rw [e3] at h
    exact h.trans (by norm_num [ MODBUS_OK, MODBUS_REGISTER_FLOW])

/-- A pattern occurring in `l2` occurs in `l1 ++ l2`. -/
theorem hasSub_append_right (p l2 : List Char) (h : hasSub p l2 = true)
    (l1 : List Char) : hasSub p (l1 ++ l2) = true := by
  induction l1 with
  | nil => simpa using h
  | cons a as ih => simp [hasSub, ih]

/-- Claim C2 is false as stated: on a null handle the guard does return the
error sentinel without invoking the wrapped operation, but the recorded
message is the Russian device-not-initialized text, which does not contain
the English substring "not initialized". Shown concretely on `SetFlow`. -/
theorem C2_counterexample :
    GFR_SetFlow ⟨fun _ _ _ => none, none, none, none⟩ (61 / 2 : ℚ) ⟨none, 1, "", []⟩
      = PyResult.ok
          ⟨none, 1, "РРГ: Установка расхода (запись в регистры 2053 и 2054) не удалось: Устройство не инициализировано (соединение не было успешно установлено)", []⟩
          (PyVal.int (-1))
    ∧ hasSub "not initialized".toList
        "РРГ: Установка расхода (запись в регистры 2053 и 2054) не удалось: Устройство не инициализировано (соединение не было успешно установлено)".toList
      = false := by
  exact ⟨by decide, by decide⟩

/-- Claim C2 (amended): for every guarded operation whose device check is not
skipped, if the connection handle is null then the wrapped operation is never
invoked (the outcome is the same for every body), the error sentinel is
returned, and ErrorState is set to
"(name) не удалось: Устройство не инициализировано (соединение не было
успешно установлено)" — the Russian rendering of "(name) failed: device not
initialized" — a message containing the Russian "Устройство не
инициализировано" rather than the English "not initialized". -/
theorem C2_amended (cfg : GuardCfg) (body : CState → PyResult CState)
    (st : CState) (hskip : cfg.skip_device_check = false)
    (hdev : st.device = none) :
    modbus_operation cfg body st
      = PyResult.ok
          (setLastError st (cfg.operation_name ++ notInitializedSuffix))
          (PyVal.int cfg.return_on_error)
    ∧ hasSub "Устройство не инициализировано".toList
        (cfg.operation_name ++ notInitializedSuffix).toList = true := by
  constructor
  · simp [modbus_operation, hskip, hdev]
  · have ht : (cfg.operation_name ++ notInitializedSuffix).toList
        = cfg.operation_name.toList ++ notInitializedSuffix.toList := by
      simp [String.toList, String.data_append]
    rw [ht]
    exact hasSub_append_right _ _ (by decide) _

/-- Witness for the amended C2, at the guarded `SetGas` configuration on a
disconnected controller. -/
theorem C2_amended_witness :
    modbus_operation gfrSetGasCfg (fun s => PyResult.ok s PyVal.none)
        ⟨none, 1, "", []⟩
      = PyResult.ok
          ⟨none, 1, "РРГ: Установка газа (запись в регистр 2100) не удалось: Устройство не инициализировано (соединение не было успешно установлено)", []⟩
          (PyVal.int (-1))
    ∧ hasSub "Устройство не инициализировано".toList
        (gfrSetGasCfg.operation_name ++ notInitializedSuffix).toList = true := by
  have h := C2_amended gfrSetGasCfg (fun s => PyResult.ok s PyVal.none)
    ⟨none, 1, "", []⟩ rfl rfl
  exact ⟨h.1.trans (by decide), h.2⟩

/-- Claim C3 fails on the code: evaluation at the failing input. A controller
starting Disconnected (handle null) whose transport constructor succeeds but
whose `connect()` returns `False` on all three attempts ends with `TurnOn`
returning the error sentinel and an error recorded, yet the handle holds the
constructed-but-unconnected client: the wrapper's cleanup tests the device
captured before the call (which was null), so it never nulls the attribute,
and `IsDisconnected()` afterwards returns `false`, not `true`. -/
theorem C3_code_behavior :
    GFR_TurnOn none (fun _ => ConnectOutcome.refused) 1 ⟨none, 1, "", []⟩
      = PyResult.ok
          ⟨some (), 1, "РРГ: Включение не удалось: Не удалось подключиться к РРГ после 3 попыток", []⟩
          (PyVal.int (-1))
    ∧ CState.IsDisconnected (resultState
        (GFR_TurnOn none (fun _ => ConnectOutcome.refused) 1 ⟨none, 1, "", []⟩))
      = false
    ∧ getLastError (resultState
        (GFR_TurnOn none (fun _ => ConnectOutcome.refused) 1 ⟨none, 1, "", []⟩))
      ≠ "" := by
  exact ⟨by decide, by decide, by decide⟩

/-- Claim C4 is false as stated: a stale error survives a *successful*
`GetFlow`. Reachable trace: `TurnOn` fails (connect refused three times),
recording a non-empty error — and, per the cleanup quirk, leaving the
constructed handle in place — then `GetFlow` succeeds, returning the
`(MODBUS_OK, 30.0)` pair; because `GetFlow` is declared with
`preserve_return_value=True` the guard skips `reset_last_error`, so
`GetLastError()` is still the old non-empty message immediately after the
successful operation. -/
theorem C4_counterexample :
    GFR_TurnOn none (fun _ => ConnectOutcome.refused) 1 ⟨none, 1, "", []⟩
      = PyResult.ok
          ⟨some (), 1, "РРГ: Включение не удалось: Не удалось подключиться к РРГ после 3 попыток", []⟩
          (PyVal.int (-1))
    ∧ GFR_GetFlow ⟨fun _ _ _ => none, none, none, some [300]⟩
        ⟨some (), 1, "РРГ: Включение не удалось: Не удалось подключиться к РРГ после 3 попыток", []⟩
      = PyResult.ok
          ⟨some (), 1, "РРГ: Включение не удалось: Не удалось подключиться к РРГ после 3 попыток", [DevEvent.readFlow 2103 1]⟩
          (PyVal.pair 0 (30 : ℚ))
    ∧ ("РРГ: Включение не удалось: Не удалось подключиться к РРГ после 3 попыток" : String) ≠ "" := by
  refine ⟨by decide, ?_, by decide⟩
  have h := getFlow_spec 300 (by decide)
    ⟨fun _ _ _ => none, none, none, some [300]⟩
    ⟨some (), 1, "РРГ: Включение не удалось: Не удалось подключиться к РРГ после 3 попыток", []⟩
    rfl rfl rfl
  have e2 : signed16 300 = 300 := by decide
  rw [e2] at h
  exact h.trans (by norm_num [ MODBUS_OK, MODBUS_REGISTER_FLOW])

/-- Claim C4 (amended): after a successful guarded operation declared with
`preserve_return_value=False`, `GetLastError()` is `""`; after a successful
operation declared with `preserve_return_value=True` (i.e. `GetFlow`),
ErrorState is left exactly as it was, so a stale error survives; and after a
guarded operation that fails through a raised exception or through the device
check, `GetLastError()` is the corresponding non-empty message. -/
theorem C4_amended :
    (∀ (cfg : GuardCfg) (body : CState → PyResult CState) (st st1 : CState)
        (v : PyVal),
      (cfg.skip_device_check = true ∨ st.device.isSome = true) →
      body st = PyResult.ok st1 v → pyEqInt v MODBUS_ERROR = false →
      cfg.preserve_return_value = false →
      modbus_operation cfg body st
        = PyResult.ok (resetLastError st1) (PyVal.int cfg.return_on_success))
    ∧ (∀ (cfg : GuardCfg) (body : CState → PyResult CState) (st st1 : CState)
        (v : PyVal),
      (cfg.skip_device_check = true ∨ st.device.isSome = true) →
      body st = PyResult.ok st1 v → pyEqInt v MODBUS_ERROR = false →
      cfg.preserve_return_value = true →
      modbus_operation cfg body st = PyResult.ok st1 v)
    ∧ (∀ (cfg : GuardCfg) (body : CState → PyResult CState) (st st1 : CState)
        (e : String),
      (cfg.skip_device_check = true ∨ st.device.isSome = true) →
      body st = PyResult.exn st1 e →
      getLastError (resultState (modbus_operation cfg body st))
          = cfg.operation_name ++ failSep ++ e
        ∧ getLastError (resultState (modbus_operation cfg body st)) ≠ "")
    ∧ (∀ (cfg : GuardCfg) (body : CState → PyResult CState) (st : CState),
      cfg.skip_device_check = false → st.device = none →
      getLastError (resultState (modbus_operation cfg body st))
          = cfg.operation_name ++ notInitializedSuffix
        ∧ getLastError (resultState (modbus_operation cfg body st)) ≠ "") := by
  have hcond : ∀ (cfg : GuardCfg) (st : CState),
      (cfg.skip_device_check = true ∨ st.device.isSome = true) →
      (!cfg.skip_device_check && st.device.isNone) = false := by
    rintro cfg st (h | h)
    · simp [h]
    · rcases hd : st.device with _ | u
      · rw [hd] at h
        simp at h
      · simp [hd]
  refine ⟨?_, ?_, ?_, ?_⟩
  · intro cfg body st st1 v hg hbody hne hpres
    simp [modbus_operation, hcond cfg st hg, hbody, hne, hpres]
  · intro cfg body st st1 v hg hbody hne hpres
    simp [modbus_operation, hcond cfg st hg, hbody, hne, hpres]
  · intro cfg body st st1 e hg hbody
    have hmsg : getLastError (resultState (modbus_operation cfg body st))
        = cfg.operation_name ++ failSep ++ e := by
      simp only [modbus_operation, hcond cfg st hg, Bool.false_eq_true,
        if_false, hbody]
      split <;> rfl
    refine ⟨hmsg, ?_⟩
    rw [hmsg]
    intro hcontra
    have hl := congrArg String.length hcontra
    rw [String.length_append, String.length_append] at hl
    have hf : 0 < failSep.length := by decide
    have hz : ("" : String).length = 0 := rfl
    omega
  · intro cfg body st hskip hdev
    have hmsg : getLastError (resultState (modbus_operation cfg body st))
        = cfg.operation_name ++ notInitializedSuffix := by
      simp [modbus_operation, hskip, hdev, getLastError, resultState,
        setLastError]
    refine ⟨hmsg, ?_⟩
    rw [hmsg]
    intro hcontra
    have hl := congrArg String.length hcontra
    rw [String.length_append] at hl
    have hf : 0 < notInitializedSuffix.length := by decide
    have hz : ("" : String).length = 0 := rfl
    omega

/-- Witness for the amended C4: a successful non-preserving guarded operation
clears a stale error, and a successful `GetFlow` leaves it in place. -/
theorem C4_amended_witness :
    modbus_operation ⟨"OP", true, 0, -1, false, false⟩
        (fun s => PyResult.ok s PyVal.none) ⟨some (), 1, "stale", []⟩
      = PyResult.ok ⟨some (), 1, "", []⟩ (PyVal.int 0)
    ∧ modbus_operation gfrGetFlowCfg
        (fun s => PyResult.ok s (PyVal.pair 0 3)) ⟨some (), 1, "stale", []⟩
      = PyResult.ok ⟨some (), 1, "stale", []⟩ (PyVal.pair 0 3) := by
  constructor
  · have h := C4_amended.1 ⟨"OP", true, 0, -1, false, false⟩
      (fun s => PyResult.ok s PyVal.none) ⟨some (), 1, "stale", []⟩
      ⟨some (), 1, "stale", []⟩ PyVal.none (Or.inr rfl) rfl rfl rfl
    exact h.trans (by decide)
  · exact C4_amended.2.1 gfrGetFlowCfg
      (fun s => PyResult.ok s (PyVal.pair 0 3)) ⟨some (), 1, "stale", []⟩
      ⟨some (), 1, "stale", []⟩ (PyVal.pair 0 3) (Or.inr rfl) rfl rfl rfl

/-- Claim C5, evaluated at the failing input: on a relay with an open handle
(slave id 16) and a transport whose calls succeed, `TurnOff` does write `0` to
on/off register 512 with the stored slave id and then close the transport —
but it never nulls the handle, so `IsDisconnected()` afterwards returns
`false`, contradicting the claim (and the repository's own
`test_turnon_turnoff_sequence` assertion). -/
theorem C5_code_behavior :
    Relay_TurnOff ⟨fun _ _ _ => none, none, none, none⟩ ⟨some (), 16, "", []⟩
      = PyResult.ok ⟨some (), 16, "", [DevEvent.write 512 0 16, DevEvent.close]⟩
          (PyVal.int 0)
    ∧ CState.IsDisconnected (resultState
        (Relay_TurnOff ⟨fun _ _ _ => none, none, none, none⟩ ⟨some (), 16, "", []⟩))
      = false := by
  exact ⟨by decide, by decide⟩

/-- Claim C6: for every setpoint `s` whose encoded value fits a signed 32-bit
integer, `SetFlow s` computes `value = int(s * 1000)` (truncation toward
zero), and writes exactly two registers in order: first the high word
`value >> 16` (arithmetic shift, i.e. floor division by 2^16) to register
2053, then the low word `value & 0xFFFF` (i.e. the nonnegative remainder
modulo 2^16) to register 2054, both tagged with the stored slave id; the
guarded call reports success. -/
theorem C6_setflow_encode (s : ℚ) (dev : DevBehavior) (st : CState)
    (hdev : st.device = some ())
    (hw : ∀ r v sl, dev.writeExn r v sl = none)
    (hrange : (pyTrunc (s * 1000)).natAbs < 2 ^ 31) :
    GFR_SetFlow dev s st = PyResult.ok
      { st with
          events := st.events ++
            [DevEvent.write MODBUS_REGISTER_SETPOINT_HIGH
               (Int.fdiv (pyTrunc (s * 1000)) 65536) st.slave_id,
             DevEvent.write MODBUS_REGISTER_SETPOINT_LOW
               (Int.emod (pyTrunc (s * 1000)) 65536) st.slave_id],
          lastError := "" }
      (PyVal.int MODBUS_OK) := by
  simp [GFR_SetFlow, modbus_operation, GFR_SetFlow_body, gfrSetFlowCfg, hdev,
    hw, pyEqInt, resetLastError, MODBUS_OK]

/-- Witness for C6 at the claim's example: `SetFlow 30.5` writes high word `0`
to 2053 then low word `30500` to 2054. -/
theorem C6_setflow_encode_witness :
    GFR_SetFlow ⟨fun _ _ _ => none, none, none, none⟩ (61 / 2 : ℚ)
        ⟨some (), 1, "x", []⟩
      = PyResult.ok
          ⟨some (), 1, "", [DevEvent.write 2053 0 1, DevEvent.write 2054 30500 1]⟩
          (PyVal.int 0) := by
  have hq : ((61 / 2 : ℚ) * 1000) = (30500 : ℚ) := by norm_num
  have hv : pyTrunc ((61 / 2 : ℚ) * 1000) = 30500 := by
    rw [hq]
    simp [pyTrunc]
  have h := C6_setflow_encode (61 / 2 : ℚ)
    ⟨fun _ _ _ => none, none, none, none⟩ ⟨some (), 1, "x", []⟩ rfl
    (fun _ _ _ => rfl) (by rw [hv]; decide)
  rw [hv] at h
  exact h.trans (by decide)

/-- Claim C7: when every `connect()` fails (returns `False` or raises), the
connection establishment makes exactly 3 `connect()` calls and then raises a
connection error whose message embeds the attempt count 3; when `connect()`
fails exactly twice and then succeeds, it returns normally after exactly 3
`connect()` calls. -/
theorem C7_connection_retry (connect : Nat → ConnectOutcome) :
    ((∀ i, connect i ≠ ConnectOutcome.ok) →
      connectLoop connect 3 0 = (3, false)
      ∧ ∀ (slv : Int) (st : CState),
          GFR_init none connect slv st
            = PyResult.exn
                { st with device := some (), slave_id := slv, lastError := "" }
                (gfrConnectFailMsg 3))
    ∧ (connect 0 ≠ ConnectOutcome.ok → connect 1 ≠ ConnectOutcome.ok →
       connect 2 = ConnectOutcome.ok →
      connectLoop connect 3 0 = (3, true)
      ∧ ∀ (slv : Int) (st : CState),
          GFR_init none connect slv st
            = PyResult.ok
                { st with device := some (), slave_id := slv, lastError := "" }
                PyVal.none)
    ∧ hasSub "3".toList (gfrConnectFailMsg 3).toList = true := by
  refine ⟨?_, ?_, by decide⟩
  · intro hall
    have hl : connectLoop connect 3 0 = (3, false) := by
      have h0 := hall 0
      have h1 := hall 1
      have h2 := hall 2
      cases c0 : connect 0 <;> cases c1 : connect 1 <;> cases c2 : connect 2 <;>
        simp_all [connectLoop]
    refine ⟨hl, ?_⟩
    intro slv st
    simp [GFR_init, GFR_set_slave, modbus_operation, gfrSetSlaveCfg,
      GFR_set_slave_body, pyEqInt, resetLastError, hl]
  · intro h0 h1 h2
    have hl : connectLoop connect 3 0 = (3, true) := by
      cases c0 : connect 0 <;> cases c1 : connect 1 <;> simp_all [connectLoop]
    refine ⟨hl, ?_⟩
    intro slv st
    simp [GFR_init, GFR_set_slave, modbus_operation, gfrSetSlaveCfg,
      GFR_set_slave_body, pyEqInt, resetLastError, hl]

/-- Witness for C7: an always-refusing transport exhausts exactly 3 attempts
and raises; a transport succeeding on the third attempt connects after
exactly 3 calls. -/
theorem C7_connection_retry_witness :
    connectLoop (fun _ => ConnectOutcome.refused) 3 0 = (3, false)
    ∧ GFR_init none (fun _ => ConnectOutcome.refused) 5 ⟨none, 1, "", []⟩
        = PyResult.exn ⟨some (), 5, "", []⟩ (gfrConnectFailMsg 3)
    ∧ connectLoop
        (fun i => if i == 2 then ConnectOutcome.ok else ConnectOutcome.refused) 3 0
      = (3, true)
    ∧ GFR_init none
        (fun i => if i == 2 then ConnectOutcome.ok else ConnectOutcome.refused) 5
        ⟨none, 1, "", []⟩
      = PyResult.ok ⟨some (), 5, "", []⟩ PyVal.none := by
  have hA := (C7_connection_retry (fun _ => ConnectOutcome.refused)).1
    (fun i => by decide)
  have hB := (C7_connection_retry
      (fun i => if i == 2 then ConnectOutcome.ok else ConnectOutcome.refused)).2.1
    (by decide) (by decide) (by decide)
  refine ⟨hA.1, ?_, hB.1, ?_⟩
  · exact (hA.2 5 ⟨none, 1, "", []⟩).trans (by decide)
  · exact (hB.2 5 ⟨none, 1, "", []⟩).trans (by decide)

/-- Claim C8: for every guard configuration, every wrapped-operation behaviour
(including raising an arbitrary exception at any point) and every starting
state, the guarded operation returns normally — a sentinel or a preserved
`(status, value)` tuple — and never propagates a raised exception. -/
theorem C8_no_exception_propagation (cfg : GuardCfg)
    (body : CState → PyResult CState) (st : CState) :
    ∃ st1 v, modbus_operation cfg body st = PyResult.ok st1 v := by
  by_cases hc : (!cfg.skip_device_check && st.device.isNone) = true
  · exact ⟨_, _, by simp [modbus_operation, hc]; exact ⟨rfl, rfl⟩⟩
  · cases hb : body st with
    | exn s e =>
      by_cases hcl : (cfg.cleanup_on_error && st.device.isSome) = true
      · exact ⟨_, _, by simp [modbus_operation, hc, hb, hcl]; exact ⟨rfl, rfl⟩⟩
      · exact ⟨_, _, by simp [modbus_operation, hc, hb, hcl]; exact ⟨rfl, rfl⟩⟩
    | ok s v =>
      by_cases hres : pyEqInt v MODBUS_ERROR = true
      · exact ⟨_, _, by simp [modbus_operation, hc, hb, hres]; exact ⟨rfl, rfl⟩⟩
      · by_cases hp : cfg.preserve_return_value = true
        · exact ⟨_, _, by simp [modbus_operation, hc, hb, hres, hp]; exact ⟨rfl, rfl⟩⟩
        · exact ⟨_, _, by simp [modbus_operation, hc, hb, hres, hp]; exact ⟨rfl, rfl⟩⟩

/-- Claim C9 (implicit behaviour): the guard compares the wrapped operation's
return value against the fixed constant `MODBUS_ERROR = -1`, not against the
configured error sentinel; so when an operation configured with a custom error
sentinel `e ≠ -1` returns `e`, the guard treats it as a success — it clears
ErrorState and returns the configured success sentinel (with
`preserve_return_value = false`). -/
theorem C9_custom_sentinel_success (cfg : GuardCfg)
    (body : CState → PyResult CState) (st st1 : CState) (e : Int)
    (herr : cfg.return_on_error = e) (hne : e ≠ -1)
    (hpres : cfg.preserve_return_value = false)
    (hguard : cfg.skip_device_check = true ∨ st.device.isSome = true)
    (hbody : body st = PyResult.ok st1 (PyVal.int e)) :
    modbus_operation cfg body st
      = PyResult.ok (resetLastError st1) (PyVal.int cfg.return_on_success) := by
  have hcond : (!cfg.skip_device_check && st.device.isNone) = false := by
    rcases hguard with h | h
    · simp [h]
    · rcases hd : st.device with _ | u
      · rw [hd] at h
        simp at h
      · simp [hd]
  simp [modbus_operation, hcond, hbody, pyEqInt, MODBUS_ERROR, hne, hpres]

/-- Witness for C9, mirroring the repository's custom-sentinel test values:
`return_on_error = -42`, wrapped operation returns `-42`, guard reports the
success sentinel `42` and clears the error string. -/
theorem C9_custom_sentinel_success_witness :
    modbus_operation ⟨"Custom Return", true, 42, -42, false, false⟩
        (fun s => PyResult.ok s (PyVal.int (-42))) ⟨some (), 1, "old", []⟩
      = PyResult.ok ⟨some (), 1, "", []⟩ (PyVal.int 42) := by
  have h := C9_custom_sentinel_success ⟨"Custom Return", true, 42, -42, false, false⟩
    (fun s => PyResult.ok s (PyVal.int (-42))) ⟨some (), 1, "old", []⟩
    ⟨some (), 1, "old", []⟩ (-42) rfl (by decide) rfl (Or.inr rfl) rfl
  exact h.trans (by decide)

/-- Claim C10 (implicit behaviour): on the flow regulator with a present
handle, `TurnOff` returns the success sentinel 0 and clears ErrorState for
every transport behaviour — even when `close()` raises: the inner guarded
`_close` converts the exception into the error sentinel (nulling the handle),
`TurnOff`'s body discards that value and returns `None`, and `TurnOff`'s own
guard then reports success and resets the error string. -/
theorem C10_gfr_turnoff_success (dev : DevBehavior) (st : CState)
    (hdev : st.device = some ()) :
    GFR_TurnOff dev st
      = PyResult.ok ⟨none, st.slave_id, "", st.events ++ [DevEvent.close]⟩
          (PyVal.int 0) := by
  obtain ⟨d, slv, err, evs⟩ := st
  simp only [CState.device] at hdev
  subst hdev
  cases hc : dev.closeExn <;>
    simp [GFR_TurnOff, modbus_operation, GFR_TurnOff_body, GFR_close,
      GFR_close_body, gfrTurnOffCfg, gfrCloseCfg, hc, pyEqInt, resetLastError,
      setLastError]

/-- Witness for C10 with a `close()` that raises: `TurnOff` still returns 0
with an empty error string (and a nulled handle). -/
theorem C10_gfr_turnoff_success_witness :
    GFR_TurnOff ⟨fun _ _ _ => none, some "close failed", none, none⟩
        ⟨some (), 1, "", []⟩
      = PyResult.ok ⟨none, 1, "", [DevEvent.close]⟩ (PyVal.int 0) := by
  exact (C10_gfr_turnoff_success ⟨fun _ _ _ => none, some "close failed", none, none⟩
    ⟨some (), 1, "", []⟩ rfl).trans (by decide)
